import Mathlib

/-!
# Detect phase of the bundle-install buildpack

A shallow embedding of `detect.go`: the function `Detect`, which asks the Gemfile parser
and, as a fallback, the `.ruby-version` parser for the Ruby version of an application and
assembles the build plan of a positive detection.

The two parsers are the injected `VersionParser` values of the source; here they are
functions from a path to the pair `(version, err)` that `ParseVersion` returns. The effects
of one run (the parser calls and the lines given to the logger) are recorded, in order, in
the `events` of the run.

`DetectWith` is the same function over collaborators with effects: there the record of a
run is written by the parsers and the logger when they are called, and `recordedRun_eq_Detect`
shows that it is the trace of `Detect`.
-/

namespace BundleInstall

/-! ## Errors -/

/-- Error values that a `VersionParser` returns: the errors of the Go standard library that
reading a file produces, and wrappers around them.
* `errNotExist` is the sentinel `os.ErrNotExist`;
* `errno n` is a `syscall.Errno`;
* `errorString s` is a value made by `errors.New s` (or `fmt.Errorf` without `%w`), a fresh
  value different from every sentinel whatever its text;
* `wrapError msg err` is `fmt.Errorf` with a `%w` verb around `err`, `msg` being the whole text;
* `pathError op path err` is an `*fs.PathError`. -/
inductive GoError where
  | errNotExist : GoError
  | errno (n : Nat) : GoError
  | errorString (s : String) : GoError
  | wrapError (msg : String) (err : GoError) : GoError
  | pathError (op path : String) (err : GoError) : GoError
  deriving DecidableEq, Repr

/-- The number of `syscall.ENOENT` on Linux. -/
def ENOENT : Nat := 2

/-- The call `errors.Is(err, os.ErrNotExist)`: walk the `Unwrap` chain of `err`; a link
matches when it is the sentinel itself or when its `Is` method accepts the sentinel
(`syscall.Errno` does so for `ENOENT`). -/
def errorsIsNotExist : GoError → Bool
  | .errNotExist => true
  | .errno n => n == ENOENT
  | .errorString _ => false
  | .wrapError _ err => errorsIsNotExist err
  | .pathError _ _ err => errorsIsNotExist err

/-- The interface `VersionParser`: `ParseVersion(path)` returns `(version, err)`, where
`err = none` is the nil error of Go. -/
abbrev VersionParser := String → String × Option GoError

/-! ## `filepath.Join` (Unix) -/

/-- Split a list of characters at every `/`. -/
def splitSlash : List Char → List (List Char)
  | [] => [[]]
  | c :: cs =>
    match splitSlash cs with
    | [] => [[c]]
    | first :: rest => if c = '/' then [] :: first :: rest else (c :: first) :: rest

/-- One step of `filepath.Clean` over the path elements; `acc` holds the kept elements,
the last one first. Empty elements and `.` are dropped, `..` removes the element before
it, is dropped at the root, and is kept at the start of a relative path. -/
def cleanElem (rooted : Bool) (acc : List String) (elem : String) : List String :=
  if elem = "" ∨ elem = "." then acc
  else if elem = ".." then
    match acc with
    | [] => if rooted then [] else [".."]
    | top :: rest => if top = ".." then ".." :: top :: rest else rest
  else elem :: acc

/-- The function `filepath.Clean` on Unix. -/
def filepathClean (path : String) : String :=
  let rooted : Bool := path.data.head? = some '/'
  let elems := (splitSlash path.data).map String.mk
  let kept := (elems.foldl (cleanElem rooted) []).reverse
  let out := (if rooted then "/" else "") ++ "/".intercalate kept
  if out = "" then "." else out

/-- The call `filepath.Join(a, b)` on Unix: the elements from the first non-empty one on
are joined with `/` and the result is cleaned; the join of empty elements is empty. -/
def filepathJoin (a b : String) : String :=
  if a ≠ "" then filepathClean (a ++ "/" ++ b)
  else if b ≠ "" then filepathClean b
  else ""

/-! ## Build plan -/

/-- The struct `BuildPlanMetadata`; the zero value has empty strings and false flags. -/
structure BuildPlanMetadata where
  Version : String := ""
  VersionSource : String := ""
  Build : Bool := false
  Launch : Bool := false
  deriving DecidableEq, Repr

/-- The struct `packit.BuildPlanProvision`. -/
structure BuildPlanProvision where
  Name : String
  deriving DecidableEq, Repr

/-- The struct `packit.BuildPlanRequirement`; the metadata that `Detect` stores is always a
`BuildPlanMetadata`. -/
structure BuildPlanRequirement where
  Name : String
  Metadata : BuildPlanMetadata
  deriving DecidableEq, Repr

/-- The struct `packit.BuildPlan` (its field `Or` is never set by `Detect`). -/
structure BuildPlan where
  Provides : List BuildPlanProvision := []
  Requires : List BuildPlanRequirement := []
  deriving DecidableEq, Repr

/-- The struct `packit.DetectResult`; `DetectResult{}` is the value with the empty plan. -/
structure DetectResult where
  Plan : BuildPlan := {}
  deriving DecidableEq, Repr

/-- The struct `packit.DetectContext`; `Detect` reads only the working directory. -/
structure DetectContext where
  WorkingDir : String
  deriving DecidableEq, Repr

/-- Modelled from the spec: the constant `GemsDependency` of the package, declared outside
`detect.go`; the spec names the provided capability "gems". -/
def GemsDependency : String := "gems"

/-- Modelled from the spec: the constant `BundlerDependency` of the package, declared
outside `detect.go`; the spec names the first requirement "bundler". -/
def BundlerDependency : String := "bundler"

/-- Modelled from the spec: the constant `MRIDependency` of the package, declared outside
`detect.go`; the spec names the third requirement "mri". -/
def MRIDependency : String := "mri"

/-- The constant `rubyVersionFile`. -/
def rubyVersionFile : String := ".ruby-version"

/-! ## The detect function -/

/-- The error that the detect function returns: the failure `packit.Fail.WithMessage msg`
that `Detect` builds itself, or the error of a parser returned unchanged. -/
inductive DetectError where
  | fail (message : String) : DetectError
  | parser (err : GoError) : DetectError
  deriving DecidableEq, Repr

/-- An effect of a run of the detect function. -/
inductive Event where
  | gemfileParse (path : String) : Event
  | rubyVersionFileParse (path : String) : Event
  | subprocess (line : String) : Event
  deriving DecidableEq, Repr

/-- What one call of the detect function does and returns: its effects in order, and the
pair `(packit.DetectResult, error)`. -/
structure DetectRun where
  events : List Event
  result : DetectResult
  err : Option DetectError
  deriving DecidableEq, Repr

/-- The warning that `Detect` gives to the logger when the fallback parser fails. -/
def rubyVersionWarning : String :=
  "WARNING: Could not parse the .ruby-version file, as a result no Ruby version has been specified"

/-- The function returned by `Detect(gemfileParser, rubyVersionFileParser, logger)`, applied
to `context`. -/
def Detect (gemfileParser rubyVersionFileParser : VersionParser) (context : DetectContext) :
    DetectRun :=
  let gemfile := filepathJoin context.WorkingDir "Gemfile"
  match gemfileParser gemfile with
  | (_, some err) =>
    if errorsIsNotExist err then
      { events := [.gemfileParse gemfile]
        result := {}
        err := some (.fail "Gemfile is not present") }
    else
      { events := [.gemfileParse gemfile]
        result := {}
        err := some (.parser err) }
  | (mriVersion, none) =>
    let (mriVersion, versionSource, events) : String × String × List Event :=
      if mriVersion ≠ "" then
        (mriVersion, "Gemfile", [.gemfileParse gemfile])
      else
        match rubyVersionFileParser rubyVersionFile with
        | (_, some _) =>
          (mriVersion, "",
            [.gemfileParse gemfile, .rubyVersionFileParse rubyVersionFile,
              .subprocess rubyVersionWarning])
        | (rubyVersion, none) =>
          if rubyVersion ≠ "" then
            (rubyVersion, rubyVersionFile,
              [.gemfileParse gemfile, .rubyVersionFileParse rubyVersionFile])
          else
            (mriVersion, "", [.gemfileParse gemfile, .rubyVersionFileParse rubyVersionFile])
    { events := events
      result :=
        { Plan :=
            { Provides := [{ Name := GemsDependency }]
              Requires :=
                [ { Name := BundlerDependency
                    Metadata := { Build := true, Launch := true } },
                  { Name := GemsDependency
                    Metadata := { Launch := true } },
                  { Name := MRIDependency
                    Metadata :=
                      { Version := mriVersion
                        VersionSource := versionSource
                        Build := true
                        Launch := true } } ] } }
      err := none }

/-- The lines that the logger received during a run, in order. -/
def DetectRun.logged (r : DetectRun) : List String :=
  r.events.filterMap fun e =>
    match e with
    | .subprocess line => some line
    | _ => none

/-- The paths with which the fallback (`.ruby-version`) parser was called during a run. -/
def DetectRun.fallbackCalls (r : DetectRun) : List String :=
  r.events.filterMap fun e =>
    match e with
    | .rubyVersionFileParse path => some path
    | _ => none

/-- The three ways a run ends. -/
inductive Outcome where
  | positive : Outcome
  | negative : Outcome
  | hardError : Outcome
  deriving DecidableEq, Repr

/-- The kind of outcome of a run: positive when the returned error is nil, negative when it
is a `packit.Fail` failure, a hard error when it is the error of a parser. -/
def DetectRun.outcome (r : DetectRun) : Outcome :=
  match r.err with
  | none => .positive
  | some (.fail _) => .negative
  | some (.parser _) => .hardError

/-- The requirement of the plan with the given name, if there is one. -/
def DetectRun.requirement (r : DetectRun) (name : String) : Option BuildPlanRequirement :=
  r.result.Plan.Requires.find? fun q => q.Name = name

/-- The paths with which the Gemfile parser was called during a run. -/
def DetectRun.gemfileCalls (r : DetectRun) : List String :=
  r.events.filterMap fun e =>
    match e with
    | .gemfileParse path => some path
    | _ => none

/-- The calls of the two parsers during a run, in order. -/
def DetectRun.parserCalls (r : DetectRun) : List Event :=
  r.events.filter fun e =>
    match e with
    | .subprocess _ => false
    | _ => true

/-- The chain that `errors.Is` walks: the error itself, then what `Unwrap` gives, and so on.
The `%w` wrapper and `*fs.PathError` have an `Unwrap` method, the other errors end the
chain. -/
def unwrapChain : GoError → List GoError
  | .errNotExist => [.errNotExist]
  | .errno n => [.errno n]
  | .errorString s => [.errorString s]
  | .wrapError msg err => .wrapError msg err :: unwrapChain err
  | .pathError op path err => .pathError op path err :: unwrapChain err

/-! ## The detect function over collaborators with effects

In the source the two parsers and the logger are objects: a call of `ParseVersion` or of
`Subprocess` may change the world (a fake parser counts its calls and keeps the path it
received, the logger writes a line). Here a call takes the world before it and returns
the world after it, and the detect function can change the world only by such calls. -/

/-- A `VersionParser` whose method `ParseVersion(path)` acts on a world of type `σ`. -/
abbrev EffectfulParser (σ : Type) := String → σ → (String × Option GoError) × σ

/-- The logger `scribe.Emitter`, by its method `Subprocess(line)`, acting on a world of
type `σ`. -/
abbrev Emitter (σ : Type) := String → σ → σ

/-- The function returned by `Detect(gemfileParser, rubyVersionFileParser, logger)`, applied
to `context` in the world `world`: it returns the pair `(packit.DetectResult, error)` and
the world after the run. -/
def DetectWith {σ : Type} (gemfileParser rubyVersionFileParser : EffectfulParser σ)
    (logger : Emitter σ) (context : DetectContext) (world : σ) :
    (DetectResult × Option DetectError) × σ :=
  match gemfileParser (filepathJoin context.WorkingDir "Gemfile") world with
  | ((_, some err), world) =>
    if errorsIsNotExist err then
      (({}, some (.fail "Gemfile is not present")), world)
    else
      (({}, some (.parser err)), world)
  | ((mriVersion, none), world) =>
    let (mriVersion, versionSource, world) : String × String × σ :=
      if mriVersion ≠ "" then
        (mriVersion, "Gemfile", world)
      else
        match rubyVersionFileParser rubyVersionFile world with
        | ((_, some _), world) =>
          (mriVersion, "", logger rubyVersionWarning world)
        | ((rubyVersion, none), world) =>
          if rubyVersion ≠ "" then
            (rubyVersion, rubyVersionFile, world)
          else
            (mriVersion, "", world)
    (({ Plan :=
          { Provides := [{ Name := GemsDependency }]
            Requires :=
              [ { Name := BundlerDependency
                  Metadata := { Build := true, Launch := true } },
                { Name := GemsDependency
                  Metadata := { Launch := true } },
                { Name := MRIDependency
                  Metadata :=
                    { Version := mriVersion
                      VersionSource := versionSource
                      Build := true
                      Launch := true } } ] } }, none), world)

/-- A parser that answers as `answers` does and, at each call, appends to the world the
path that it received, under the label of the parser. -/
def recordingParser (label : String → Event) (answers : VersionParser) :
    EffectfulParser (List Event) :=
  fun path world => (answers path, world ++ [label path])

/-- A logger that appends to the world each line that it receives. -/
def recordingLogger : Emitter (List Event) :=
  fun line world => world ++ [.subprocess line]

/-- The run of the detect function with recording collaborators, from the empty world:
its events are what the parsers and the logger received, in order. -/
def recordedRun (gemfileAnswers rubyVersionFileAnswers : VersionParser)
    (context : DetectContext) : DetectRun :=
  let out := DetectWith (recordingParser .gemfileParse gemfileAnswers)
    (recordingParser .rubyVersionFileParse rubyVersionFileAnswers) recordingLogger context []
  { events := out.2, result := out.1.1, err := out.1.2 }

/-! ## Properties of the detect function -/

/-- C1: when the Gemfile parser fails with an error of the "file does not exist" kind,
the detect function returns the failure with the message "Gemfile is not present" (a
negative outcome, not a hard error) and the empty result, and the logger receives no line,
whatever the working directory and the fallback parser are. -/
theorem detect_gemfile_absent (gemfileParser rubyVersionFileParser : VersionParser)
    (context : DetectContext) (version : String) (e : GoError)
    (hparse : gemfileParser (filepathJoin context.WorkingDir "Gemfile") = (version, some e))
    (hkind : errorsIsNotExist e = true) :
    (Detect gemfileParser rubyVersionFileParser context).err
        = some (.fail "Gemfile is not present")
      ∧ (Detect gemfileParser rubyVersionFileParser context).outcome = .negative
      ∧ (Detect gemfileParser rubyVersionFileParser context).outcome ≠ .hardError
      ∧ (Detect gemfileParser rubyVersionFileParser context).logged = [] := by
  simp [Detect, hparse, hkind, DetectRun.outcome, DetectRun.logged]

/-- Witness of C1: the Gemfile parser reports the error of `os.Open` on a missing file. -/
theorem detect_gemfile_absent_witness :
    (Detect (fun path => ("", some (.pathError "open" path (.errno 2))))
        (fun _ => ("3.1.0", none)) { WorkingDir := "/workspace" }).err
        = some (.fail "Gemfile is not present")
      ∧ (Detect (fun path => ("", some (.pathError "open" path (.errno 2))))
        (fun _ => ("3.1.0", none)) { WorkingDir := "/workspace" }).outcome = .negative
      ∧ (Detect (fun path => ("", some (.pathError "open" path (.errno 2))))
        (fun _ => ("3.1.0", none)) { WorkingDir := "/workspace" }).outcome ≠ .hardError
      ∧ (Detect (fun path => ("", some (.pathError "open" path (.errno 2))))
        (fun _ => ("3.1.0", none)) { WorkingDir := "/workspace" }).logged = [] :=
  detect_gemfile_absent _ _ _ "" (.pathError "open" "/workspace/Gemfile" (.errno 2))
    (by decide) (by decide)

/-- C2: when the Gemfile parser succeeds with a non-empty version `V`, the detect function
returns a positive outcome whose third requirement is "mri" with version `V`, version
source "Gemfile", build and launch set; the fallback parser is never called, and the whole
run is the same for any two fallback parsers. -/
theorem detect_gemfile_version (gemfileParser rubyVersionFileParser other : VersionParser)
    (context : DetectContext) (V : String) (hV : V ≠ "")
    (hparse : gemfileParser (filepathJoin context.WorkingDir "Gemfile") = (V, none)) :
    (Detect gemfileParser rubyVersionFileParser context).err = none
      ∧ (Detect gemfileParser rubyVersionFileParser context).outcome = .positive
      ∧ (Detect gemfileParser rubyVersionFileParser context).result.Plan.Requires[2]?
          = some { Name := "mri"
                   Metadata :=
                    { Version := V, VersionSource := "Gemfile", Build := true, Launch := true } }
      ∧ (Detect gemfileParser rubyVersionFileParser context).fallbackCalls = []
      ∧ Detect gemfileParser rubyVersionFileParser context
          = Detect gemfileParser other context := by
  simp [Detect, hparse, hV, DetectRun.outcome, DetectRun.fallbackCalls, MRIDependency]

/-- Witness of C2: the Gemfile yields "3.2.1"; one fallback parser fails, the other one
yields another version. -/
theorem detect_gemfile_version_witness :
    (Detect (fun _ => ("3.2.1", none)) (fun _ => ("", some (.errno 13)))
        { WorkingDir := "/workspace" }).err = none
      ∧ (Detect (fun _ => ("3.2.1", none)) (fun _ => ("", some (.errno 13)))
        { WorkingDir := "/workspace" }).outcome = .positive
      ∧ (Detect (fun _ => ("3.2.1", none)) (fun _ => ("", some (.errno 13)))
        { WorkingDir := "/workspace" }).result.Plan.Requires[2]?
          = some { Name := "mri"
                   Metadata :=
                    { Version := "3.2.1", VersionSource := "Gemfile", Build := true,
                      Launch := true } }
      ∧ (Detect (fun _ => ("3.2.1", none)) (fun _ => ("", some (.errno 13)))
        { WorkingDir := "/workspace" }).fallbackCalls = []
      ∧ Detect (fun _ => ("3.2.1", none)) (fun _ => ("", some (.errno 13)))
          { WorkingDir := "/workspace" }
          = Detect (fun _ => ("3.2.1", none)) (fun _ => ("3.1.0", none))
              { WorkingDir := "/workspace" } :=
  detect_gemfile_version _ _ _ _ "3.2.1" (by decide) rfl

/-- C3: when the Gemfile parser succeeds with the empty version and the fallback parser
succeeds with a non-empty version `W`, the detect function returns a positive outcome
whose "mri" requirement has version `W` and version source ".ruby-version", and the logger
receives no line. -/
theorem detect_ruby_version_file (gemfileParser rubyVersionFileParser : VersionParser)
    (context : DetectContext) (W : String) (hW : W ≠ "")
    (hparse : gemfileParser (filepathJoin context.WorkingDir "Gemfile") = ("", none))
    (hfallback : rubyVersionFileParser rubyVersionFile = (W, none)) :
    (Detect gemfileParser rubyVersionFileParser context).outcome = .positive
      ∧ (Detect gemfileParser rubyVersionFileParser context).requirement "mri"
          = some { Name := "mri"
                   Metadata :=
                    { Version := W, VersionSource := ".ruby-version", Build := true,
                      Launch := true } }
      ∧ (Detect gemfileParser rubyVersionFileParser context).logged = [] := by
  have hfile : rubyVersionFileParser ".ruby-version" = (W, none) := hfallback
  simp [Detect, hparse, hfile, hW, DetectRun.outcome, DetectRun.requirement,
    DetectRun.logged, MRIDependency, BundlerDependency, GemsDependency, rubyVersionFile]

/-- Witness of C3: a Gemfile without a Ruby version and a pin file that yields "3.1.0". -/
theorem detect_ruby_version_file_witness :
    (Detect (fun _ => ("", none)) (fun _ => ("3.1.0", none))
        { WorkingDir := "/workspace" }).outcome = .positive
      ∧ (Detect (fun _ => ("", none)) (fun _ => ("3.1.0", none))
        { WorkingDir := "/workspace" }).requirement "mri"
          = some { Name := "mri"
                   Metadata :=
                    { Version := "3.1.0", VersionSource := ".ruby-version", Build := true,
                      Launch := true } }
      ∧ (Detect (fun _ => ("", none)) (fun _ => ("3.1.0", none))
        { WorkingDir := "/workspace" }).logged = [] :=
  detect_ruby_version_file _ _ _ "3.1.0" (by decide) rfl rfl

/-- C4: when the Gemfile parser succeeds with the empty version and the fallback parser
succeeds with the empty version or fails, the detect function returns a positive outcome
whose "mri" requirement has an empty version and an empty version source; the logger
receives exactly one line, the warning, when the fallback parser failed, and no line when
it succeeded with the empty version. -/
theorem detect_no_version (gemfileParser rubyVersionFileParser : VersionParser)
    (context : DetectContext)
    (hparse : gemfileParser (filepathJoin context.WorkingDir "Gemfile") = ("", none))
    (hfallback : rubyVersionFileParser rubyVersionFile = ("", none)
      ∨ (rubyVersionFileParser rubyVersionFile).2 ≠ none) :
    (Detect gemfileParser rubyVersionFileParser context).outcome = .positive
      ∧ (Detect gemfileParser rubyVersionFileParser context).requirement "mri"
          = some { Name := "mri"
                   Metadata :=
                    { Version := "", VersionSource := "", Build := true, Launch := true } }
      ∧ ((rubyVersionFileParser rubyVersionFile).2 ≠ none →
          (Detect gemfileParser rubyVersionFileParser context).logged = [rubyVersionWarning])
      ∧ ((rubyVersionFileParser rubyVersionFile).2 = none →
          (Detect gemfileParser rubyVersionFileParser context).logged = []) := by
  rcases hfallback with h | h
  · simp [Detect, hparse, h, DetectRun.outcome, DetectRun.requirement,
      DetectRun.logged, MRIDependency, BundlerDependency, GemsDependency]
  · rcases hres : rubyVersionFileParser rubyVersionFile with ⟨v, _ | e⟩
    · simp [hres] at h
    · simp [Detect, hparse, hres, DetectRun.outcome, DetectRun.requirement,
        DetectRun.logged, MRIDependency, BundlerDependency, GemsDependency]

/-- Witness of C4: the pin file cannot be read, and the error comes with a version. -/
theorem detect_no_version_witness :
    (Detect (fun _ => ("", none)) (fun _ => ("3.1.0", some (.errno 13)))
        { WorkingDir := "/workspace" }).outcome = .positive
      ∧ (Detect (fun _ => ("", none)) (fun _ => ("3.1.0", some (.errno 13)))
        { WorkingDir := "/workspace" }).requirement "mri"
          = some { Name := "mri"
                   Metadata :=
                    { Version := "", VersionSource := "", Build := true, Launch := true } }
      ∧ (Detect (fun _ => ("", none)) (fun _ => ("3.1.0", some (.errno 13)))
        { WorkingDir := "/workspace" }).logged = [rubyVersionWarning] :=
  have h := detect_no_version (fun _ => ("", none)) (fun _ => ("3.1.0", some (.errno 13)))
    { WorkingDir := "/workspace" } rfl (Or.inr (by decide))
  ⟨h.1, h.2.1, h.2.2.1 (by decide)⟩

/-- C5: in every positive outcome, whatever the two parsers returned, the plan provides
exactly "gems" and requires exactly "bundler" (build, launch, no version fields), "gems"
(launch only, no version fields) and "mri" (build, launch), in this order; only the version
and the version source of "mri" vary. -/
theorem detect_plan_shape (gemfileParser rubyVersionFileParser : VersionParser)
    (context : DetectContext)
    (hpos : (Detect gemfileParser rubyVersionFileParser context).outcome = .positive) :
    (Detect gemfileParser rubyVersionFileParser context).result.Plan.Provides
        = [{ Name := "gems" }]
      ∧ ∃ version versionSource : String,
          (Detect gemfileParser rubyVersionFileParser context).result.Plan.Requires
            = [ { Name := "bundler"
                  Metadata :=
                    { Version := "", VersionSource := "", Build := true, Launch := true } },
                { Name := "gems"
                  Metadata :=
                    { Version := "", VersionSource := "", Build := false, Launch := true } },
                { Name := "mri"
                  Metadata :=
                    { Version := version, VersionSource := versionSource, Build := true,
                      Launch := true } } ] := by
  rcases hg : gemfileParser (filepathJoin context.WorkingDir "Gemfile") with ⟨v, _ | e⟩
  · by_cases hv : v = ""
    · rcases hf : rubyVersionFileParser rubyVersionFile with ⟨w, _ | e⟩
      · by_cases hw : w = "" <;>
          simp [Detect, hg, hf, hv, hw, MRIDependency, BundlerDependency, GemsDependency]
      · simp [Detect, hg, hf, hv, MRIDependency, BundlerDependency, GemsDependency]
    · simp [Detect, hg, hv, MRIDependency, BundlerDependency, GemsDependency]
  · by_cases hk : errorsIsNotExist e = true <;>
      simp [Detect, hg, hk, DetectRun.outcome] at hpos

/-- Witness of C5: a Gemfile without a Ruby version and an unreadable pin file. -/
theorem detect_plan_shape_witness :
    (Detect (fun _ => ("", none)) (fun _ => ("", some .errNotExist))
        { WorkingDir := "/workspace" }).result.Plan.Provides = [{ Name := "gems" }]
      ∧ ∃ version versionSource : String,
          (Detect (fun _ => ("", none)) (fun _ => ("", some .errNotExist))
            { WorkingDir := "/workspace" }).result.Plan.Requires
            = [ { Name := "bundler"
                  Metadata :=
                    { Version := "", VersionSource := "", Build := true, Launch := true } },
                { Name := "gems"
                  Metadata :=
                    { Version := "", VersionSource := "", Build := false, Launch := true } },
                { Name := "mri"
                  Metadata :=
                    { Version := version, VersionSource := versionSource, Build := true,
                      Launch := true } } ] :=
  detect_plan_shape _ _ _ (by decide)

/-- C6: when the Gemfile parser fails with an error `e` that is not of the "file does not
exist" kind, whatever version comes with it, the detect function returns `e` itself as a
hard error together with the empty result (no provisions, no requirements); the fallback
parser is not called and the logger receives no line. -/
theorem detect_gemfile_error (gemfileParser rubyVersionFileParser : VersionParser)
    (context : DetectContext) (version : String) (e : GoError)
    (hparse : gemfileParser (filepathJoin context.WorkingDir "Gemfile") = (version, some e))
    (hkind : errorsIsNotExist e = false) :
    (Detect gemfileParser rubyVersionFileParser context).err = some (.parser e)
      ∧ (Detect gemfileParser rubyVersionFileParser context).outcome = .hardError
      ∧ (Detect gemfileParser rubyVersionFileParser context).result = {}
      ∧ (Detect gemfileParser rubyVersionFileParser context).result.Plan.Provides = []
      ∧ (Detect gemfileParser rubyVersionFileParser context).result.Plan.Requires = []
      ∧ (Detect gemfileParser rubyVersionFileParser context).fallbackCalls = []
      ∧ (Detect gemfileParser rubyVersionFileParser context).logged = [] := by
  simp [Detect, hparse, hkind, DetectRun.outcome, DetectRun.fallbackCalls, DetectRun.logged]

/-- Witness of C6: the Gemfile cannot be opened for lack of permission, and the parser
returns a version next to the error. -/
theorem detect_gemfile_error_witness :
    (Detect (fun path => ("3.2.1", some (.pathError "open" path (.errno 13))))
        (fun _ => ("3.1.0", none)) { WorkingDir := "/workspace" }).err
        = some (.parser (.pathError "open" "/workspace/Gemfile" (.errno 13)))
      ∧ (Detect (fun path => ("3.2.1", some (.pathError "open" path (.errno 13))))
        (fun _ => ("3.1.0", none)) { WorkingDir := "/workspace" }).result = {}
      ∧ (Detect (fun path => ("3.2.1", some (.pathError "open" path (.errno 13))))
        (fun _ => ("3.1.0", none)) { WorkingDir := "/workspace" }).fallbackCalls = []
      ∧ (Detect (fun path => ("3.2.1", some (.pathError "open" path (.errno 13))))
        (fun _ => ("3.1.0", none)) { WorkingDir := "/workspace" }).logged = [] :=
  have h := detect_gemfile_error
    (fun path => ("3.2.1", some (.pathError "open" path (.errno 13))))
    (fun _ => ("3.1.0", none)) { WorkingDir := "/workspace" } "3.2.1"
    (.pathError "open" "/workspace/Gemfile" (.errno 13)) (by decide) (by decide)
  ⟨h.1, h.2.2.1, h.2.2.2.2.2.1, h.2.2.2.2.2.2⟩

/-- C7: in every requirement of every plan that the detect function returns, whatever the
parsers do, the version source is non-empty if and only if the version is non-empty. -/
theorem detect_version_source_iff (gemfileParser rubyVersionFileParser : VersionParser)
    (context : DetectContext) (q : BuildPlanRequirement)
    (hq : q ∈ (Detect gemfileParser rubyVersionFileParser context).result.Plan.Requires) :
    q.Metadata.VersionSource ≠ "" ↔ q.Metadata.Version ≠ "" := by
  have hfile : rubyVersionFile ≠ "" := by decide
  rcases hg : gemfileParser (filepathJoin context.WorkingDir "Gemfile") with ⟨v, _ | e⟩
  · by_cases hv : v = ""
    · rcases hf : rubyVersionFileParser rubyVersionFile with ⟨w, _ | e⟩
      · by_cases hw : w = "" <;>
          simp [Detect, hg, hf, hv, hw] at hq <;>
          rcases hq with rfl | rfl | rfl <;> simp [hw, hfile]
      · simp [Detect, hg, hf, hv] at hq
        rcases hq with rfl | rfl | rfl <;> simp
    · simp [Detect, hg, hv] at hq
      rcases hq with rfl | rfl | rfl <;> simp [hv]
  · by_cases hk : errorsIsNotExist e = true <;> simp [Detect, hg, hk] at hq

/-- Witness of C7: the "mri" requirement of a plan whose version comes from the pin file. -/
theorem detect_version_source_iff_witness :
    (Detect (fun _ => ("", none)) (fun _ => ("3.1.0", none))
        { WorkingDir := "/workspace" }).result.Plan.Requires[2]?
        = some { Name := "mri"
                 Metadata :=
                  { Version := "3.1.0", VersionSource := ".ruby-version", Build := true,
                    Launch := true } }
      ∧ ((".ruby-version" : String) ≠ "" ↔ ("3.1.0" : String) ≠ "") :=
  ⟨by decide,
    detect_version_source_iff (fun _ => ("", none)) (fun _ => ("3.1.0", none))
      { WorkingDir := "/workspace" }
      { Name := "mri"
        Metadata :=
          { Version := "3.1.0", VersionSource := ".ruby-version", Build := true,
            Launch := true } }
      (by decide)⟩

/-- C8, as the scenario is stated, fails: with the Gemfile absent (the parser reports the
error of `os.Open` on a missing file) and a pin file that yields "3.1.0", the detect
function returns the failure "Gemfile is not present" with the empty result; the fallback
parser is not called, the plan has no "mri" requirement, and so no version is resolved. -/
theorem detect_absent_gemfile_ignores_pin :
    (Detect (fun path => ("", some (.pathError "open" path (.errno ENOENT))))
        (fun _ => ("3.1.0", none)) { WorkingDir := "/workspace" }).err
        = some (.fail "Gemfile is not present")
      ∧ (Detect (fun path => ("", some (.pathError "open" path (.errno ENOENT))))
        (fun _ => ("3.1.0", none)) { WorkingDir := "/workspace" }).fallbackCalls = []
      ∧ (Detect (fun path => ("", some (.pathError "open" path (.errno ENOENT))))
        (fun _ => ("3.1.0", none)) { WorkingDir := "/workspace" }).requirement "mri" = none
      ∧ (Detect (fun path => ("", some (.pathError "open" path (.errno ENOENT))))
        (fun _ => ("3.1.0", none)) { WorkingDir := "/workspace" }).requirement "mri"
          ≠ some { Name := "mri"
                   Metadata :=
                    { Version := "3.1.0", VersionSource := ".ruby-version", Build := true,
                      Launch := true } } := by
  decide

/-- C8, amended: with a pin file that yields the version "3.1.0", the detect function
resolves the "mri" version to "3.1.0" with version source ".ruby-version" when the Gemfile
is present and yields the empty version; when the Gemfile is absent it returns the negative
outcome "Gemfile is not present" with the empty result and does not call the fallback
parser. -/
theorem detect_pin_file_scenario (gemfileParser rubyVersionFileParser : VersionParser)
    (context : DetectContext)
    (hpin : rubyVersionFileParser rubyVersionFile = ("3.1.0", none)) :
    (gemfileParser (filepathJoin context.WorkingDir "Gemfile") = ("", none) →
        (Detect gemfileParser rubyVersionFileParser context).outcome = .positive
          ∧ (Detect gemfileParser rubyVersionFileParser context).requirement "mri"
              = some { Name := "mri"
                       Metadata :=
                        { Version := "3.1.0", VersionSource := ".ruby-version", Build := true,
                          Launch := true } })
      ∧ (∀ (version : String) (e : GoError),
          gemfileParser (filepathJoin context.WorkingDir "Gemfile") = (version, some e) →
          errorsIsNotExist e = true →
          (Detect gemfileParser rubyVersionFileParser context).err
              = some (.fail "Gemfile is not present")
            ∧ (Detect gemfileParser rubyVersionFileParser context).result = {}
            ∧ (Detect gemfileParser rubyVersionFileParser context).fallbackCalls = []) := by
  have hfile : rubyVersionFileParser ".ruby-version" = ("3.1.0", none) := hpin
  refine ⟨fun hg => ?_, fun version e hg hk => ?_⟩
  · simp [Detect, hg, hfile, DetectRun.outcome, DetectRun.requirement, MRIDependency,
      BundlerDependency, GemsDependency, rubyVersionFile]
  · simp [Detect, hg, hk, DetectRun.fallbackCalls]

/-- Witness of the amended C8: a Gemfile without a Ruby version next to the pin file. -/
theorem detect_pin_file_scenario_witness :
    (Detect (fun _ => ("", none)) (fun _ => ("3.1.0", none))
        { WorkingDir := "/workspace" }).outcome = .positive
      ∧ (Detect (fun _ => ("", none)) (fun _ => ("3.1.0", none))
        { WorkingDir := "/workspace" }).requirement "mri"
          = some { Name := "mri"
                   Metadata :=
                    { Version := "3.1.0", VersionSource := ".ruby-version", Build := true,
                      Launch := true } } :=
  (detect_pin_file_scenario (fun _ => ("", none)) (fun _ => ("3.1.0", none))
    { WorkingDir := "/workspace" } rfl).1 rfl

/-- C9: the kind of outcome is decided by the Gemfile parser alone. The detect function
returns a negative outcome if and only if the Gemfile parser fails with an error of the
"file does not exist" kind; every successful parse of the Gemfile gives a positive outcome,
also when the fallback parser fails with a "file does not exist" error; and two runs that
differ only in the fallback parser have the same kind of outcome. -/
theorem detect_outcome_kind (gemfileParser rubyVersionFileParser other : VersionParser)
    (context : DetectContext) :
    ((Detect gemfileParser rubyVersionFileParser context).outcome = .negative ↔
        ∃ e, (gemfileParser (filepathJoin context.WorkingDir "Gemfile")).2 = some e
          ∧ errorsIsNotExist e = true)
      ∧ ((gemfileParser (filepathJoin context.WorkingDir "Gemfile")).2 = none →
          (Detect gemfileParser rubyVersionFileParser context).outcome = .positive)
      ∧ (Detect gemfileParser rubyVersionFileParser context).outcome
          = (Detect gemfileParser other context).outcome := by
  rcases hg : gemfileParser (filepathJoin context.WorkingDir "Gemfile") with ⟨v, _ | e⟩
  · simp [Detect, hg, DetectRun.outcome]
  · by_cases hk : errorsIsNotExist e = true <;> simp [Detect, hg, hk, DetectRun.outcome]

/-- Witness of C9: the Gemfile has no Ruby version and the pin file does not exist; the
outcome is positive, as it is with a pin file that yields a version. -/
theorem detect_outcome_kind_witness :
    (Detect (fun _ => ("", none)) (fun path => ("", some (.pathError "open" path .errNotExist)))
        { WorkingDir := "/workspace" }).outcome = .positive
      ∧ (Detect (fun _ => ("", none))
          (fun path => ("", some (.pathError "open" path .errNotExist)))
          { WorkingDir := "/workspace" }).outcome
        = (Detect (fun _ => ("", none)) (fun _ => ("3.1.0", none))
          { WorkingDir := "/workspace" }).outcome :=
  have h := detect_outcome_kind (fun _ => ("", none))
    (fun path => ("", some (.pathError "open" path .errNotExist))) (fun _ => ("3.1.0", none))
    { WorkingDir := "/workspace" }
  ⟨h.2.1 rfl, h.2.2⟩

/-- C10: a failure of the fallback parser is never fatal. When the Gemfile parser succeeds
with the empty version and the fallback parser returns an error of any kind, with any
version next to it, the detect function returns a positive outcome with no error, and the
"mri" requirement has an empty version and an empty version source. -/
theorem detect_fallback_error (gemfileParser rubyVersionFileParser : VersionParser)
    (context : DetectContext) (version : String) (e : GoError)
    (hparse : gemfileParser (filepathJoin context.WorkingDir "Gemfile") = ("", none))
    (hfallback : rubyVersionFileParser rubyVersionFile = (version, some e)) :
    (Detect gemfileParser rubyVersionFileParser context).err = none
      ∧ (Detect gemfileParser rubyVersionFileParser context).outcome = .positive
      ∧ (Detect gemfileParser rubyVersionFileParser context).requirement "mri"
          = some { Name := "mri"
                   Metadata :=
                    { Version := "", VersionSource := "", Build := true, Launch := true } } := by
  simp [Detect, hparse, hfallback, DetectRun.outcome, DetectRun.requirement, MRIDependency,
    BundlerDependency, GemsDependency]

/-- Witness of C10: the pin file does not exist, and the parser returns a version next to
the error. -/
theorem detect_fallback_error_witness :
    (Detect (fun _ => ("", none)) (fun _ => ("3.1.0", some (.wrapError "no pin" .errNotExist)))
        { WorkingDir := "/workspace" }).err = none
      ∧ (Detect (fun _ => ("", none))
          (fun _ => ("3.1.0", some (.wrapError "no pin" .errNotExist)))
          { WorkingDir := "/workspace" }).outcome = .positive
      ∧ (Detect (fun _ => ("", none))
          (fun _ => ("3.1.0", some (.wrapError "no pin" .errNotExist)))
          { WorkingDir := "/workspace" }).requirement "mri"
          = some { Name := "mri"
                   Metadata :=
                    { Version := "", VersionSource := "", Build := true, Launch := true } } :=
  detect_fallback_error _ _ _ "3.1.0" (.wrapError "no pin" .errNotExist) rfl rfl

/-- C11: logging is confined to the failure of the fallback parser. The logger receives
exactly one line, the warning, when the fallback parser was called and returned an error,
and no line in every other case: when the Gemfile parser fails (with either kind of
error), when it returns a non-empty version, and when the fallback parser succeeds. -/
theorem detect_logging (gemfileParser rubyVersionFileParser : VersionParser)
    (context : DetectContext) :
    ((Detect gemfileParser rubyVersionFileParser context).fallbackCalls ≠ []
          ∧ (rubyVersionFileParser rubyVersionFile).2 ≠ none →
        (Detect gemfileParser rubyVersionFileParser context).logged = [rubyVersionWarning]
          ∧ (Detect gemfileParser rubyVersionFileParser context).logged.length = 1)
      ∧ (¬((Detect gemfileParser rubyVersionFileParser context).fallbackCalls ≠ []
            ∧ (rubyVersionFileParser rubyVersionFile).2 ≠ none) →
          (Detect gemfileParser rubyVersionFileParser context).logged = [])
      ∧ ((gemfileParser (filepathJoin context.WorkingDir "Gemfile")).2 ≠ none →
          (Detect gemfileParser rubyVersionFileParser context).logged = [])
      ∧ ((gemfileParser (filepathJoin context.WorkingDir "Gemfile")).1 ≠ "" →
          (Detect gemfileParser rubyVersionFileParser context).logged = [])
      ∧ ((rubyVersionFileParser rubyVersionFile).2 = none →
          (Detect gemfileParser rubyVersionFileParser context).logged = []) := by
  rcases hg : gemfileParser (filepathJoin context.WorkingDir "Gemfile") with ⟨v, _ | e⟩
  · by_cases hv : v = ""
    · rcases hf : rubyVersionFileParser rubyVersionFile with ⟨w, _ | e⟩
      · by_cases hw : w = "" <;>
          simp [Detect, hg, hf, hv, hw, DetectRun.logged, DetectRun.fallbackCalls]
      · simp [Detect, hg, hf, hv, DetectRun.logged, DetectRun.fallbackCalls]
    · simp [Detect, hg, hv, DetectRun.logged, DetectRun.fallbackCalls]
  · by_cases hk : errorsIsNotExist e = true <;>
      simp [Detect, hg, hk, DetectRun.logged, DetectRun.fallbackCalls]

/-- Witness of C11: with an unreadable pin file the logger receives the one warning; with
an unreadable Gemfile it receives nothing. -/
theorem detect_logging_witness :
    (Detect (fun _ => ("", none)) (fun _ => ("", some (.errno 13)))
        { WorkingDir := "/workspace" }).logged = [rubyVersionWarning]
      ∧ (Detect (fun _ => ("", some (.errno 13))) (fun _ => ("", some (.errno 13)))
        { WorkingDir := "/workspace" }).logged = [] :=
  ⟨((detect_logging (fun _ => ("", none)) (fun _ => ("", some (.errno 13)))
      { WorkingDir := "/workspace" }).1 (by decide)).1,
    (detect_logging (fun _ => ("", some (.errno 13))) (fun _ => ("", some (.errno 13)))
      { WorkingDir := "/workspace" }).2.2.1 (by decide)⟩

/-- The trace that `Detect` writes is the one that recording collaborators observe: the
run with recording parsers and a recording logger returns the same result and error, and
its world holds the same events in the same order. -/
theorem recordedRun_eq_Detect (gemfileParser rubyVersionFileParser : VersionParser)
    (context : DetectContext) :
    recordedRun gemfileParser rubyVersionFileParser context
      = Detect gemfileParser rubyVersionFileParser context := by
  rcases hg : gemfileParser (filepathJoin context.WorkingDir "Gemfile") with ⟨v, _ | e⟩
  · by_cases hv : v = ""
    · rcases hf : rubyVersionFileParser rubyVersionFile with ⟨w, _ | e⟩
      · by_cases hw : w = "" <;>
          simp [recordedRun, DetectWith, recordingParser, recordingLogger, Detect, hg, hf,
            hv, hw]
      · simp [recordedRun, DetectWith, recordingParser, recordingLogger, Detect, hg, hf, hv]
    · simp [recordedRun, DetectWith, recordingParser, recordingLogger, Detect, hg, hv]
  · by_cases hk : errorsIsNotExist e = true <;>
      simp [recordedRun, DetectWith, recordingParser, recordingLogger, Detect, hg, hk]

/-- C12: in every run the Gemfile parser is called exactly once, and first. The fallback
parser is called exactly once, after it, when the Gemfile parser succeeded with the empty
version, and not at all otherwise; so a run makes at most two parser calls. The calls are
those that the parsers themselves record when they are called, and the trace of `Detect`
is that record. -/
theorem detect_parser_calls (gemfileParser rubyVersionFileParser : VersionParser)
    (context : DetectContext) :
    (recordedRun gemfileParser rubyVersionFileParser context).events.head?
        = some (.gemfileParse (filepathJoin context.WorkingDir "Gemfile"))
      ∧ (recordedRun gemfileParser rubyVersionFileParser context).gemfileCalls.length = 1
      ∧ (gemfileParser (filepathJoin context.WorkingDir "Gemfile") = ("", none) →
          (recordedRun gemfileParser rubyVersionFileParser context).fallbackCalls.length = 1
            ∧ (recordedRun gemfileParser rubyVersionFileParser context).parserCalls
                = [.gemfileParse (filepathJoin context.WorkingDir "Gemfile"),
                    .rubyVersionFileParse rubyVersionFile])
      ∧ (gemfileParser (filepathJoin context.WorkingDir "Gemfile") ≠ ("", none) →
          (recordedRun gemfileParser rubyVersionFileParser context).fallbackCalls = []
            ∧ (recordedRun gemfileParser rubyVersionFileParser context).parserCalls
                = [.gemfileParse (filepathJoin context.WorkingDir "Gemfile")])
      ∧ (recordedRun gemfileParser rubyVersionFileParser context).parserCalls.length ≤ 2
      ∧ recordedRun gemfileParser rubyVersionFileParser context
          = Detect gemfileParser rubyVersionFileParser context := by
  refine ⟨?_, ?_, ?_, ?_, ?_, recordedRun_eq_Detect _ _ _⟩ <;>
    rcases hg : gemfileParser (filepathJoin context.WorkingDir "Gemfile") with ⟨v, _ | e⟩
  case refine_1.mk.some | refine_2.mk.some | refine_3.mk.some | refine_4.mk.some
      | refine_5.mk.some =>
    by_cases hk : errorsIsNotExist e = true <;>
      simp [recordedRun, DetectWith, recordingParser, hg, hk, DetectRun.gemfileCalls,
        DetectRun.fallbackCalls, DetectRun.parserCalls]
  all_goals
    by_cases hv : v = ""
    · rcases hf : rubyVersionFileParser rubyVersionFile with ⟨w, _ | e⟩
      · by_cases hw : w = "" <;>
          simp [recordedRun, DetectWith, recordingParser, hg, hf, hv, hw,
            DetectRun.gemfileCalls, DetectRun.fallbackCalls, DetectRun.parserCalls]
      · simp [recordedRun, DetectWith, recordingParser, recordingLogger, hg, hf, hv,
          DetectRun.gemfileCalls, DetectRun.fallbackCalls, DetectRun.parserCalls]
    · simp [recordedRun, DetectWith, recordingParser, hg, hv, DetectRun.gemfileCalls,
        DetectRun.fallbackCalls, DetectRun.parserCalls]

/-- Witness of C12: a Gemfile without a Ruby version gives the two calls in order; a
Gemfile with a version gives the one call. -/
theorem detect_parser_calls_witness :
    (recordedRun (fun _ => ("", none)) (fun _ => ("3.1.0", none))
        { WorkingDir := "/workspace" }).parserCalls
        = [.gemfileParse "/workspace/Gemfile", .rubyVersionFileParse ".ruby-version"]
      ∧ (recordedRun (fun _ => ("3.2.1", none)) (fun _ => ("3.1.0", none))
        { WorkingDir := "/workspace" }).parserCalls = [.gemfileParse "/workspace/Gemfile"] :=
  ⟨((detect_parser_calls (fun _ => ("", none)) (fun _ => ("3.1.0", none))
      { WorkingDir := "/workspace" }).2.2.1 rfl).2,
    ((detect_parser_calls (fun _ => ("3.2.1", none)) (fun _ => ("3.1.0", none))
      { WorkingDir := "/workspace" }).2.2.2.1 (by decide)).2⟩

/-- C13: for every working directory `D` the Gemfile parser receives the path
`filepath.Join(D, "Gemfile")`, while the fallback parser, when it is called, receives the
bare relative path ".ruby-version", whatever `D` is. These are the paths that the parsers
record at their calls, the run consults the parsers at no other path, and the trace of
`Detect` is that record. -/
theorem detect_paths (gemfileParser rubyVersionFileParser : VersionParser)
    (context : DetectContext) :
    (recordedRun gemfileParser rubyVersionFileParser context).gemfileCalls
        = [filepathJoin context.WorkingDir "Gemfile"]
      ∧ ((recordedRun gemfileParser rubyVersionFileParser context).fallbackCalls = []
          ∨ (recordedRun gemfileParser rubyVersionFileParser context).fallbackCalls
              = [".ruby-version"])
      ∧ (∀ path ∈ (recordedRun gemfileParser rubyVersionFileParser context).fallbackCalls,
          path = ".ruby-version")
      ∧ (gemfileParser (filepathJoin context.WorkingDir "Gemfile") = ("", none) →
          (recordedRun gemfileParser rubyVersionFileParser context).fallbackCalls
            = [".ruby-version"])
      ∧ (∀ gemfileParser2 rubyVersionFileParser2 : VersionParser,
          gemfileParser2 (filepathJoin context.WorkingDir "Gemfile")
              = gemfileParser (filepathJoin context.WorkingDir "Gemfile") →
          rubyVersionFileParser2 ".ruby-version" = rubyVersionFileParser ".ruby-version" →
          recordedRun gemfileParser2 rubyVersionFileParser2 context
            = recordedRun gemfileParser rubyVersionFileParser context)
      ∧ recordedRun gemfileParser rubyVersionFileParser context
          = Detect gemfileParser rubyVersionFileParser context := by
  refine ⟨?_, ?_, ?_, ?_, fun g2 f2 hg2 hf2 => ?_, recordedRun_eq_Detect _ _ _⟩ <;>
    rcases hg : gemfileParser (filepathJoin context.WorkingDir "Gemfile") with ⟨v, _ | e⟩
  case refine_1.mk.some | refine_2.mk.some | refine_3.mk.some | refine_4.mk.some =>
    by_cases hk : errorsIsNotExist e = true <;>
      simp [recordedRun, DetectWith, recordingParser, hg, hk, DetectRun.gemfileCalls,
        DetectRun.fallbackCalls]
  case refine_5.mk.some =>
    rw [hg] at hg2
    by_cases hk : errorsIsNotExist e = true <;>
      simp [recordedRun, DetectWith, recordingParser, hg, hg2, hk]
  case refine_5.mk.none =>
    rw [hg] at hg2
    by_cases hv : v = ""
    · rcases hf : rubyVersionFileParser ".ruby-version" with ⟨w, _ | e⟩ <;>
        rw [hf] at hf2 <;>
        simp [recordedRun, DetectWith, recordingParser, recordingLogger, rubyVersionFile, hg,
          hg2, hf, hf2, hv]
    · simp [recordedRun, DetectWith, recordingParser, hg, hg2, hv]
  all_goals
    by_cases hv : v = ""
    · rcases hf : rubyVersionFileParser ".ruby-version" with ⟨w, _ | e⟩
      · by_cases hw : w = "" <;>
          simp [recordedRun, DetectWith, recordingParser, rubyVersionFile, hg, hf, hv, hw,
            DetectRun.gemfileCalls, DetectRun.fallbackCalls]
      · simp [recordedRun, DetectWith, recordingParser, recordingLogger, rubyVersionFile, hg,
          hf, hv, DetectRun.gemfileCalls, DetectRun.fallbackCalls]
    · simp [recordedRun, DetectWith, recordingParser, hg, hv, DetectRun.gemfileCalls,
        DetectRun.fallbackCalls]

/-- Witness of C13: in two different working directories the Gemfile parser receives the
path inside the directory and the fallback parser receives the same bare path. -/
theorem detect_paths_witness :
    (recordedRun (fun _ => ("", none)) (fun _ => ("3.1.0", none))
        { WorkingDir := "/workspace/app" }).gemfileCalls = ["/workspace/app/Gemfile"]
      ∧ (recordedRun (fun _ => ("", none)) (fun _ => ("3.1.0", none))
        { WorkingDir := "/tmp/other/" }).gemfileCalls = ["/tmp/other/Gemfile"]
      ∧ (recordedRun (fun _ => ("", none)) (fun _ => ("3.1.0", none))
        { WorkingDir := "/workspace/app" }).fallbackCalls = [".ruby-version"]
      ∧ (recordedRun (fun _ => ("", none)) (fun _ => ("3.1.0", none))
        { WorkingDir := "/tmp/other/" }).fallbackCalls = [".ruby-version"] :=
  ⟨(detect_paths (fun _ => ("", none)) (fun _ => ("3.1.0", none))
      { WorkingDir := "/workspace/app" }).1.trans (by decide),
    (detect_paths (fun _ => ("", none)) (fun _ => ("3.1.0", none))
      { WorkingDir := "/tmp/other/" }).1.trans (by decide),
    (detect_paths (fun _ => ("", none)) (fun _ => ("3.1.0", none))
      { WorkingDir := "/workspace/app" }).2.2.2.1 rfl,
    (detect_paths (fun _ => ("", none)) (fun _ => ("3.1.0", none))
      { WorkingDir := "/tmp/other/" }).2.2.2.1 rfl⟩

/-- C14: the provenance of the version is faithful in both directions. In every positive
outcome the version source of "mri" is "Gemfile" if and only if the Gemfile parser returned
a non-empty version, and ".ruby-version" if and only if the Gemfile parser returned the
empty version and the fallback parser succeeded with a non-empty version; it has no other
non-empty value; and the version is the string returned by the parser that the version
source names, or empty when the version source is empty. -/
theorem detect_version_provenance (gemfileParser rubyVersionFileParser : VersionParser)
    (context : DetectContext)
    (hpos : (Detect gemfileParser rubyVersionFileParser context).outcome = .positive) :
    ∃ q : BuildPlanRequirement,
      (Detect gemfileParser rubyVersionFileParser context).requirement "mri" = some q
        ∧ (q.Metadata.VersionSource = "Gemfile" ↔
            (gemfileParser (filepathJoin context.WorkingDir "Gemfile")).1 ≠ "")
        ∧ (q.Metadata.VersionSource = ".ruby-version" ↔
            (gemfileParser (filepathJoin context.WorkingDir "Gemfile")).1 = ""
              ∧ (rubyVersionFileParser rubyVersionFile).2 = none
              ∧ (rubyVersionFileParser rubyVersionFile).1 ≠ "")
        ∧ (q.Metadata.VersionSource = "" ∨ q.Metadata.VersionSource = "Gemfile"
            ∨ q.Metadata.VersionSource = ".ruby-version")
        ∧ (q.Metadata.VersionSource = "Gemfile" →
            q.Metadata.Version = (gemfileParser (filepathJoin context.WorkingDir "Gemfile")).1)
        ∧ (q.Metadata.VersionSource = ".ruby-version" →
            q.Metadata.Version = (rubyVersionFileParser rubyVersionFile).1)
        ∧ (q.Metadata.VersionSource = "" → q.Metadata.Version = "") := by
  rcases hg : gemfileParser (filepathJoin context.WorkingDir "Gemfile") with ⟨v, _ | e⟩
  · by_cases hv : v = ""
    · rcases hf : rubyVersionFileParser ".ruby-version" with ⟨w, _ | e⟩
      · by_cases hw : w = "" <;>
          simp [Detect, hg, hf, hv, hw, DetectRun.requirement, MRIDependency,
            BundlerDependency, GemsDependency, rubyVersionFile]
      · simp [Detect, hg, hf, hv, DetectRun.requirement, MRIDependency,
          BundlerDependency, GemsDependency, rubyVersionFile]
    · simp [Detect, hg, hv, DetectRun.requirement, MRIDependency, BundlerDependency,
        GemsDependency]
  · by_cases hk : errorsIsNotExist e = true <;>
      simp [Detect, hg, hk, DetectRun.outcome] at hpos

/-- Witness of C14: the Gemfile yields "3.2.1" and the pin file would yield "3.1.0"; the
version source is "Gemfile" and the version is the one of the Gemfile. -/
theorem detect_version_provenance_witness :
    ∃ q : BuildPlanRequirement,
      (Detect (fun _ => ("3.2.1", none)) (fun _ => ("3.1.0", none))
          { WorkingDir := "/workspace" }).requirement "mri" = some q
        ∧ q.Metadata.VersionSource = "Gemfile" ∧ q.Metadata.Version = "3.2.1" :=
  have ⟨q, hq, hgem, _, _, hver, _, _⟩ :=
    detect_version_provenance (fun _ => ("3.2.1", none)) (fun _ => ("3.1.0", none))
      { WorkingDir := "/workspace" } (by decide)
  ⟨q, hq, hgem.2 (by decide), hver (hgem.2 (by decide))⟩

/-- The call `errors.Is(err, os.ErrNotExist)` is true exactly when the chain of `err` has
the sentinel itself or the errno `ENOENT`, which its `Is` method equates with the
sentinel. -/
theorem errorsIsNotExist_iff_chain (e : GoError) :
    errorsIsNotExist e = true ↔
      GoError.errNotExist ∈ unwrapChain e ∨ GoError.errno ENOENT ∈ unwrapChain e := by
  induction e with
  | errNotExist => simp [errorsIsNotExist, unwrapChain]
  | errno n =>
    simp only [errorsIsNotExist, unwrapChain, beq_iff_eq, List.mem_singleton, reduceCtorEq,
      GoError.errno.injEq, false_or]
    exact eq_comm
  | errorString s => simp [errorsIsNotExist, unwrapChain]
  | wrapError msg err ih => simp [errorsIsNotExist, unwrapChain, ih]
  | pathError op path err ih => simp [errorsIsNotExist, unwrapChain, ih]

/-- C15, as stated, fails in its second half: the error that `os.Open` gives for a missing
file, a `PathError` around the errno `ENOENT`, does not contain the sentinel
`os.ErrNotExist` anywhere in its chain, and yet the detect function does not return it as a
hard error: it returns the failure "Gemfile is not present". -/
theorem detect_enoent_without_sentinel :
    GoError.errNotExist ∉ unwrapChain (.pathError "open" "/workspace/Gemfile" (.errno ENOENT))
      ∧ (Detect (fun path => ("", some (.pathError "open" path (.errno ENOENT))))
          (fun _ => ("", none)) { WorkingDir := "/workspace" }).err
          = some (.fail "Gemfile is not present")
      ∧ (Detect (fun path => ("", some (.pathError "open" path (.errno ENOENT))))
          (fun _ => ("", none)) { WorkingDir := "/workspace" }).err
          ≠ some (.parser (.pathError "open" "/workspace/Gemfile" (.errno ENOENT)))
      ∧ (Detect (fun path => ("", some (.pathError "open" path (.errno ENOENT))))
          (fun _ => ("", none)) { WorkingDir := "/workspace" }).outcome ≠ .hardError := by
  decide

/-- C15, amended: absence is recognised through the error chain, not by the text. An error
of the Gemfile parser whose chain contains, at any depth, the sentinel `os.ErrNotExist` or
the errno `ENOENT` gives the negative outcome "Gemfile is not present", and the error itself
is not returned; an error whose chain contains neither is returned unchanged as a hard
error, whatever its text says. -/
theorem detect_absence_by_chain (gemfileParser rubyVersionFileParser : VersionParser)
    (context : DetectContext) (version : String) (e : GoError)
    (hparse : gemfileParser (filepathJoin context.WorkingDir "Gemfile") = (version, some e)) :
    (GoError.errNotExist ∈ unwrapChain e ∨ GoError.errno ENOENT ∈ unwrapChain e →
        (Detect gemfileParser rubyVersionFileParser context).err
            = some (.fail "Gemfile is not present")
          ∧ (Detect gemfileParser rubyVersionFileParser context).outcome = .negative
          ∧ (Detect gemfileParser rubyVersionFileParser context).err ≠ some (.parser e))
      ∧ (GoError.errNotExist ∉ unwrapChain e → GoError.errno ENOENT ∉ unwrapChain e →
          (Detect gemfileParser rubyVersionFileParser context).err = some (.parser e)
            ∧ (Detect gemfileParser rubyVersionFileParser context).outcome = .hardError) := by
  refine ⟨fun hin => ?_, fun h1 h2 => ?_⟩
  · have hk : errorsIsNotExist e = true := (errorsIsNotExist_iff_chain e).2 hin
    simp [Detect, hparse, hk, DetectRun.outcome]
  · have hk : errorsIsNotExist e = false := by
      cases hb : errorsIsNotExist e with
      | false => rfl
      | true => exact absurd ((errorsIsNotExist_iff_chain e).1 hb) (by simp [h1, h2])
    simp [Detect, hparse, hk, DetectRun.outcome]

/-- Witness of the amended C15: the sentinel under three wrappers gives the negative
outcome; an error that only says "file does not exist" is returned unchanged. -/
theorem detect_absence_by_chain_witness :
    (Detect
        (fun path => ("", some (.wrapError "failed to parse Gemfile: open: file does not exist"
          (.wrapError "open: file does not exist" (.pathError "open" path .errNotExist)))))
        (fun _ => ("", none)) { WorkingDir := "/workspace" }).err
        = some (.fail "Gemfile is not present")
      ∧ (Detect
        (fun _ => ("", some (.wrapError "failed to parse Gemfile: file does not exist"
          (.errorString "file does not exist"))))
        (fun _ => ("", none)) { WorkingDir := "/workspace" }).err
        = some (.parser (.wrapError "failed to parse Gemfile: file does not exist"
            (.errorString "file does not exist"))) :=
  ⟨((detect_absence_by_chain _ (fun _ => ("", none)) { WorkingDir := "/workspace" } ""
      (.wrapError "failed to parse Gemfile: open: file does not exist"
        (.wrapError "open: file does not exist"
          (.pathError "open" "/workspace/Gemfile" .errNotExist)))
      (by decide)).1 (by decide)).1,
    ((detect_absence_by_chain _ (fun _ => ("", none)) { WorkingDir := "/workspace" } ""
      (.wrapError "failed to parse Gemfile: file does not exist"
        (.errorString "file does not exist"))
      rfl).2 (by decide) (by decide)).1⟩

end BundleInstall
